import Mathlib

/-!
Verification development for the Shelly integration coordinators
(homeassistant/components/shelly/coordinator.py).

The Python module is shallowly embedded: each coroutine or callback becomes a
pure Lean function from its inputs (device snapshot, stored coordinator state,
and the outcome of the one external device call it makes) to an explicit
record of its observable effects (returned/raised, fired events, logged
warnings, baseline updates, debounced-reload arming).
-/

set_option autoImplicit false

/-- Exceptions that the embedded coroutines can raise to their caller.
UpdateFailed is the typed failure signal of the generic coordinator
framework; the others model Python exception classes that are relevant here.
In the source's Python version asyncio.TimeoutError is not a subclass of
OSError (the module itself lists them separately in line 263), so an
uncaught timeout is a distinct raised exception. -/
inductive RaisedExc where
  | updateFailed (msg : String)
  | asyncioTimeout
  | rpcTimeout
  | osError
  | unboundLocalError
  | assertionError
deriving DecidableEq, Repr

/-- Outcome of the single awaited device call inside a fetch operation
(device.update(), device.initialize() or device.update_status()):
it returns, raises OSError, raises aioshelly RPCTimeout, or the external
async_timeout window expires (asyncio.TimeoutError). -/
inductive DeviceCallOutcome where
  | ok
  | osErr
  | rpcTimeoutErr
  | timesOut
deriving DecidableEq, Repr

/-- Observable result of one fetch operation: whether the device coroutine
was awaited at all, and what the fetch raised (none means it returned). -/
structure FetchOut where
  called : Bool
  raised : Option RaisedExc
deriving DecidableEq, Repr

/-- BlockDeviceWrapper._async_update_data (coordinator.py lines 185-199).
A truthy sleep period short-circuits into UpdateFailed with the
sleeping-device message before any device call; otherwise device.update()
runs under async_timeout and only OSError is mapped to UpdateFailed. -/
def BlockDeviceWrapper_async_update_data (sleep_period : Option Nat)
    (call : DeviceCallOutcome) : FetchOut :=
  if sleep_period.getD 0 ≠ 0 then
    ⟨false, some (.updateFailed ("Sleeping device did not update within " ++
      toString (sleep_period.getD 0) ++ " seconds interval"))⟩
  else
    match call with
    | .ok => ⟨true, none⟩
    | .osErr => ⟨true, some (.updateFailed "Error fetching data")⟩
    | .rpcTimeoutErr => ⟨true, some .rpcTimeout⟩
    | .timesOut => ⟨true, some .asyncioTimeout⟩

/-- RpcDeviceWrapper._async_update_data (coordinator.py lines 405-416).
A connected device makes the tick a no-op; otherwise device.initialize()
runs under async_timeout and only OSError is mapped to UpdateFailed. -/
def RpcDeviceWrapper_async_update_data (connected : Bool)
    (call : DeviceCallOutcome) : FetchOut :=
  if connected then ⟨false, none⟩
  else
    match call with
    | .ok => ⟨true, none⟩
    | .osErr => ⟨true, some (.updateFailed "Device disconnected")⟩
    | .rpcTimeoutErr => ⟨true, some .rpcTimeout⟩
    | .timesOut => ⟨true, some .asyncioTimeout⟩

/-- RpcPollingWrapper._async_update_data (coordinator.py lines 513-523).
A disconnected device raises UpdateFailed without any device call;
otherwise device.update_status() runs under async_timeout and OSError or
aioshelly RPCTimeout are mapped to UpdateFailed. -/
def RpcPollingWrapper_async_update_data (connected : Bool)
    (call : DeviceCallOutcome) : FetchOut :=
  if !connected then ⟨false, some (.updateFailed "Device disconnected")⟩
  else
    match call with
    | .ok => ⟨true, none⟩
    | .osErr => ⟨true, some (.updateFailed "Device disconnected")⟩
    | .rpcTimeoutErr => ⟨true, some (.updateFailed "Device disconnected")⟩
    | .timesOut => ⟨true, some .asyncioTimeout⟩

/-- Modelled from the spec: the generic polling framework
(homeassistant/helpers/update_coordinator.py, a collaborator of this module
that is not under src/) classifies the outcome of a fetch: a fetch that
returns is a successful update, while a fetch that raises - the typed
update-failed signal, a timeout, or any other error - is recorded as the
same failed-update outcome (previous data retained, listeners notified). -/
def frameworkRefreshSucceeded : Option RaisedExc → Bool
  | none => true
  | some _ => false

/-- Holds exactly when a fetch outcome is the typed update-failed signal
raised by the fetch itself. -/
def isUpdateFailedSignal : Option RaisedExc → Bool
  | some (.updateFailed _) => true
  | _ => false

/-- Outcome of the single awaited device.trigger_ota_update call inside an
OTA trigger operation. -/
inductive OtaCallOutcome where
  | ok (result : String)
  | timeoutErr
  | osErr
deriving DecidableEq, Repr

/-- The update entry of a block device status snapshot
(device.status with key update), as read by the block OTA trigger. -/
structure BlockUpdateData where
  has_update : Bool
  beta_version : Option String
  status : String
  new_version : String
deriving DecidableEq, Repr

/-- Observable result of one OTA trigger invocation: which warning was
logged on early rejection (none if no rejection), whether and with which
beta flag device.trigger_ota_update was awaited, which target version the
start-of-update log line carried, and what the operation raised. -/
structure OtaOut where
  warned : Option String
  called : Option Bool
  logged_target : Option String
  raised : Option RaisedExc
deriving DecidableEq, Repr

/-- BlockDeviceWrapper.async_trigger_ota_update (coordinator.py lines
232-265). Guards reject (warning, no device call) when no stable update is
available and beta was not requested, when beta was requested but the
beta_version field is falsy, or when the status field is "updating".
Otherwise the device call is made; a TimeoutError or OSError from it is
caught and logged, after which line 265 logs the local variable result,
which was never assigned on that path, so the operation raises
UnboundLocalError. -/
def BlockDeviceWrapper_async_trigger_ota_update (beta : Bool)
    (update_data : BlockUpdateData) (call : OtaCallOutcome) : OtaOut :=
  if update_data.has_update = false ∧ beta = false then
    ⟨some "No OTA update available", none, none, none⟩
  else if beta = true ∧ update_data.beta_version.getD "" = "" then
    ⟨some "No OTA update on beta channel available", none, none, none⟩
  else if update_data.status = "updating" then
    ⟨some "OTA update already in progress", none, none, none⟩
  else
    let new_version :=
      if beta then update_data.beta_version.getD "" else update_data.new_version
    match call with
    | .ok _ => ⟨none, some beta, some new_version, none⟩
    | .timeoutErr => ⟨none, some beta, some new_version, some .unboundLocalError⟩
    | .osErr => ⟨none, some beta, some new_version, some .unboundLocalError⟩

/-- One entry of the available_updates map of an RPC device status. -/
structure RpcVersionInfo where
  version : String
deriving DecidableEq, Repr

/-- The slice of an RPC device status snapshot relevant to the OTA trigger:
the sys available_updates map (keyed by channel name), plus whether the
status snapshot reports an OTA already in progress. The source trigger
function reads only available_updates and never consults the in-progress
indicator. -/
structure RpcSysStatus where
  available_updates : List (String × RpcVersionInfo)
  ota_in_progress : Bool
deriving DecidableEq, Repr

/-- RpcDeviceWrapper.async_trigger_ota_update (coordinator.py lines
449-482). Guards reject (warning, no device call) when available_updates is
empty, when no stable entry exists and beta was not requested, or when beta
was requested but no beta entry exists. There is no in-progress guard.
The device call's TimeoutError or OSError is caught and logged and the
operation returns normally. -/
def RpcDeviceWrapper_async_trigger_ota_update (beta : Bool)
    (status : RpcSysStatus) (call : OtaCallOutcome) : OtaOut :=
  let update_data := status.available_updates
  if update_data.isEmpty ∨ ((update_data.lookup "stable").isNone ∧ beta = false) then
    ⟨some "No OTA update available", none, none, none⟩
  else if beta = true ∧ (update_data.lookup "beta").isNone then
    ⟨some "No OTA update on beta channel available", none, none, none⟩
  else
    let new_version :=
      if beta then ((update_data.lookup "beta").getD ⟨""⟩).version
      else ((update_data.lookup "stable").getD ⟨""⟩).version
    match call with
    | .ok _ => ⟨none, some beta, some new_version, none⟩
    | .timeoutErr => ⟨none, some beta, some new_version, none⟩
    | .osErr => ⟨none, some beta, some new_version, none⟩

/-- The constant tables the coordinator module imports from the
integration's const module (homeassistant/components/shelly/const.py, a file
of this repository that is not under src/). The handlers are parametrized
over them; concrete contents only matter for witnesses. -/
structure ShellyConsts where
  SHBTN_MODELS : List String
  DUAL_MODE_LIGHT_MODELS : List String
  MODELS_SUPPORTING_LIGHT_EFFECTS : List String
  INPUTS_EVENTS_DICT : List (String × String)
  RPC_INPUTS_EVENTS_TYPES : List String

/-- Modelled from the spec: concrete contents for the const tables, which
are not under src/. The spec describes a fixed lookup table from
event-type strings to canonical click types (single, double, long, ...), a
second lookup table of RPC input event types, and model lists for battery
buttons, dual mode bulbs and effect-capable lights; these concrete values
are used only to instantiate witnesses and counterexamples, the theorems
quantify over the tables. -/
def shellyConsts : ShellyConsts where
  SHBTN_MODELS := ["SHBTN-1", "SHBTN-2"]
  DUAL_MODE_LIGHT_MODELS := ["SHBDUO-1", "SHCB-1", "SHRGBW2"]
  MODELS_SUPPORTING_LIGHT_EFFECTS := ["SHBLB-1", "SHRGBW2", "SHCB-1"]
  INPUTS_EVENTS_DICT :=
    [("S", "single"), ("SS", "double"), ("SSS", "triple"),
     ("L", "long"), ("SL", "single_long"), ("LS", "long_single")]
  RPC_INPUTS_EVENTS_TYPES :=
    ["btn_down", "btn_up", "single_push", "double_push", "long_push"]

/-- One block of a block device snapshot, with the attributes the handler
reads. Attributes that only exist when the matching sensor id is present
are total fields here; the handler guards every read by a sensor_ids
membership test exactly as the source does (cfgChanged and wakeupEvent are
read based on the block type instead, again as in the source). -/
structure Block where
  type : String
  channel : Option Nat
  sensor_ids : List String
  mode : String
  effect : Int
  inputEvent : String
  inputEventCnt : Int
  cfgChanged : Int
  wakeupEvent : List String
deriving DecidableEq, Repr

/-- The slice of a block device handle read by the updates handler. -/
structure BlockDevice where
  initialized : Bool
  blocks : List Block
  hostname : String
deriving DecidableEq, Repr

/-- Mutable per-coordinator state of BlockDeviceWrapper touched by the
updates handler: the per-channel input event counter baselines
(self._last_input_events_count, a dict keyed by the 1-indexed channel) and
the config-change deduplication fields. -/
structure BlockState where
  last_input_events_count : Int → Option Int
  last_cfg_changed : Option Int
  last_mode : Option String
  last_effect : Option Int

/-- A block state with every baseline absent, as after construction. -/
def emptyBlockState : BlockState :=
  ⟨fun _ => none, none, none, none⟩

/-- Payload of a fired EVENT_SHELLY_CLICK event. -/
structure ShellyClickEvent where
  device_id : Option String
  device : String
  channel : Int
  click_type : String
  generation : Nat
deriving DecidableEq, Repr

/-- The 1-indexed physical channel key of a block:
int(block.channel or 0) + 1. -/
def chanKey (b : Block) : Int :=
  (b.channel.getD 0 : Nat) + 1

/-- A block reports both an input event type and an input event counter
(coordinator.py lines 140-144 skip all other blocks). -/
def isInputBlock (b : Block) : Prop :=
  "inputEvent" ∈ b.sensor_ids ∧ "inputEventCnt" ∈ b.sensor_ids

instance (b : Block) : Decidable (isInputBlock b) :=
  inferInstanceAs (Decidable (_ ∧ _))

/-- The mode sub-step of the per-block loop body (coordinator.py lines
127-132): on dual mode models a changed mode attribute resets the stored
config-change baseline to None, and the last seen mode is refreshed. -/
def stepMode (C : ShellyConsts) (model : String) (st : BlockState) (b : Block) :
    BlockState :=
  if model ∈ C.DUAL_MODE_LIGHT_MODELS ∧ "mode" ∈ b.sensor_ids then
    { st with
      last_cfg_changed :=
        if st.last_mode ≠ some b.mode then none else st.last_cfg_changed,
      last_mode := some b.mode }
  else st

/-- The effect sub-step of the per-block loop body (coordinator.py lines
134-138): on effect-capable models a changed effect attribute resets the
stored config-change baseline to None, and the last seen effect is
refreshed. -/
def stepEffect (C : ShellyConsts) (model : String) (st : BlockState) (b : Block) :
    BlockState :=
  if model ∈ C.MODELS_SUPPORTING_LIGHT_EFFECTS ∧ "effect" ∈ b.sensor_ids then
    { st with
      last_cfg_changed :=
        if st.last_effect ≠ some b.effect then none else st.last_cfg_changed,
      last_effect := some b.effect }
  else st

/-- The input-event sub-step of the per-block loop body (coordinator.py
lines 140-174): on a block carrying input sensors the channel baseline is
always refreshed to the current counter; a click event is fired only when a
prior baseline exists, the counter moved, the event type is nonempty and
the lookup table knows it; an unknown nonempty type is logged as a warning
instead. Returns the updated state, fired events and logged warnings. -/
def stepInput (C : ShellyConsts) (dev_id : Option String) (host : String)
    (st : BlockState) (b : Block) :
    BlockState × List ShellyClickEvent × List String :=
  if isInputBlock b then
    let channel := chanKey b
    let last_event_count := st.last_input_events_count channel
    let st' := { st with
      last_input_events_count := fun c =>
        if c = channel then some b.inputEventCnt
        else st.last_input_events_count c }
    if last_event_count = none ∨ last_event_count = some b.inputEventCnt ∨
        b.inputEvent = "" then
      (st', [], [])
    else
      match C.INPUTS_EVENTS_DICT.lookup b.inputEvent with
      | some click_type => (st', [⟨dev_id, host, channel, click_type, 1⟩], [])
      | none => (st', [], [b.inputEvent])
  else (st, [], [])

/-- Accumulated result of the per-block loop. -/
structure ProcOut where
  state : BlockState
  cfg : Int
  events : List ShellyClickEvent
  warns : List String

/-- The per-block loop of the block updates handler (coordinator.py lines
122-174), threading the coordinator state and the local cfg_changed
variable through the block list and accumulating fired events and logged
warnings in order. -/
def processBlocks (C : ShellyConsts) (model : String) (dev_id : Option String)
    (host : String) : List Block → BlockState → Int → ProcOut
  | [], st, cfg => ⟨st, cfg, [], []⟩
  | b :: bs, st, cfg =>
    let cfg1 := if b.type = "device" then b.cfgChanged else cfg
    let st1 := stepEffect C model (stepMode C model st b) b
    let t := stepInput C dev_id host st1 b
    let r := processBlocks C model dev_id host bs t.1 cfg1
    ⟨r.state, r.cfg, t.2.1 ++ r.events, t.2.2 ++ r.warns⟩

/-- The battery-button initialization of the block updates handler
(coordinator.py lines 110-119): on SHBTN models with no stored baseline for
channel 1, the first block of type device is inspected and, when its
wakeupEvent is exactly the one-element list with "button", the channel 1
baseline is seeded with -1. -/
def seedButtonBaseline (C : ShellyConsts) (model : String)
    (blocks : List Block) (st : BlockState) : BlockState :=
  if model ∈ C.SHBTN_MODELS ∧ st.last_input_events_count 1 = none then
    match blocks.find? (fun b => b.type == "device") with
    | some b =>
      if b.wakeupEvent = ["button"] then
        { st with
          last_input_events_count := fun c =>
            if c = 1 then some (-1) else st.last_input_events_count c }
      else st
    | none => st
  else st

/-- Observable result of one run of the block updates handler. -/
structure BlockHandlerOut where
  state : BlockState
  events : List ShellyClickEvent
  warns : List String
  reload_armed : Bool
  raised : Option RaisedExc

/-- BlockDeviceWrapper._async_device_updates_handler (coordinator.py lines
102-183). An uninitialized device returns immediately with nothing
changed; an empty block list fails the assert on line 108; otherwise the
battery-button seeding runs, the per-block loop runs with cfg_changed
starting at 0, the debounced reload is armed when a stored config-change
baseline survived the loop and the new counter exceeds it, and the stored
baseline is refreshed to the new counter. -/
def BlockDeviceWrapper_device_updates_handler (C : ShellyConsts)
    (model : String) (dev_id : Option String) (device : BlockDevice)
    (st : BlockState) : BlockHandlerOut :=
  if device.initialized then
    if device.blocks = [] then ⟨st, [], [], false, some .assertionError⟩
    else
      let st0 := seedButtonBaseline C model device.blocks st
      let r := processBlocks C model dev_id device.hostname device.blocks st0 0
      let armed :=
        match r.state.last_cfg_changed with
        | some v => decide (r.cfg > v)
        | none => false
      ⟨{ r.state with last_cfg_changed := some r.cfg }, r.events, r.warns,
        armed, none⟩
  else ⟨st, [], [], false, none⟩

/-- One entry of the events list of an RPC device event blob;
the event field models entry.get("event"). -/
structure RpcEventEntry where
  id : Int
  event : Option String
deriving DecidableEq, Repr

/-- An RPC device event blob (device.event), a dict with an events list. -/
structure RpcEventBlob where
  events : List RpcEventEntry
deriving DecidableEq, Repr

/-- The slice of an RPC device handle read by the updates handler. -/
structure RpcDevice where
  initialized : Bool
  connected : Bool
  event : Option RpcEventBlob
  hostname : String
deriving DecidableEq, Repr

/-- Mutable per-coordinator state of RpcDeviceWrapper touched by the
updates handler: the previously seen event blob. -/
structure RpcState where
  last_event : Option RpcEventBlob
deriving DecidableEq, Repr

/-- Observable result of one run of the RPC updates handler: the updated
state, the fired click events in order, and how many debounced-reload
tasks were created. -/
structure RpcHandlerOut where
  state : RpcState
  events : List ShellyClickEvent
  reload_arms : Nat
deriving DecidableEq, Repr

/-- The per-entry loop of the RPC updates handler (coordinator.py lines
381-403): entries without an event field are skipped, config_changed
entries arm the debounced reload, entries whose type is in the RPC input
events table fire a click event with the 1-indexed channel and generation
2, and all other types are silently ignored. -/
def processRpcEvents (C : ShellyConsts) (dev_id : Option String)
    (host : String) : List RpcEventEntry → List ShellyClickEvent × Nat
  | [] => ([], 0)
  | e :: es =>
    let r := processRpcEvents C dev_id host es
    match e.event with
    | none => r
    | some event_type =>
      if event_type = "config_changed" then (r.1, r.2 + 1)
      else if event_type ∈ C.RPC_INPUTS_EVENTS_TYPES then
        (⟨dev_id, host, e.id + 1, event_type, 2⟩ :: r.1, r.2)
      else r

/-- RpcDeviceWrapper._async_device_updates_handler (coordinator.py lines
369-403). An uninitialized device, an absent event blob, or a blob equal
to the previously seen one returns immediately with nothing changed;
otherwise the blob is stored and its entries are classified. -/
def RpcDeviceWrapper_device_updates_handler (C : ShellyConsts)
    (dev_id : Option String) (device : RpcDevice) (st : RpcState) :
    RpcHandlerOut :=
  if device.initialized = false ∨ device.event = none ∨
      device.event = st.last_event then
    ⟨st, [], 0⟩
  else
    match device.event with
    | none => ⟨st, [], 0⟩
    | some blob =>
      let r := processRpcEvents C dev_id device.hostname blob.events
      ⟨⟨some blob⟩, r.1, r.2⟩

/-- The value of the local cfg_changed variable after the per-block loop:
the cfgChanged attribute of the last block of type device, or the initial
value when no such block exists. -/
def finalCfgChanged : List Block → Int → Int
  | [], cfg => cfg
  | b :: bs, cfg => finalCfgChanged bs (if b.type = "device" then b.cfgChanged else cfg)

theorem stepMode_last_input (C : ShellyConsts) (model : String)
    (st : BlockState) (b : Block) :
    (stepMode C model st b).last_input_events_count = st.last_input_events_count := by
  unfold stepMode; split <;> rfl

theorem stepEffect_last_input (C : ShellyConsts) (model : String)
    (st : BlockState) (b : Block) :
    (stepEffect C model st b).last_input_events_count = st.last_input_events_count := by
  unfold stepEffect; split <;> rfl

theorem stepMode_last_effect (C : ShellyConsts) (model : String)
    (st : BlockState) (b : Block) :
    (stepMode C model st b).last_effect = st.last_effect := by
  unfold stepMode; split <;> rfl

theorem stepEffect_last_mode (C : ShellyConsts) (model : String)
    (st : BlockState) (b : Block) :
    (stepEffect C model st b).last_mode = st.last_mode := by
  unfold stepEffect; split <;> rfl

theorem stepMode_cfg_none (C : ShellyConsts) (model : String)
    (st : BlockState) (b : Block) (h : st.last_cfg_changed = none) :
    (stepMode C model st b).last_cfg_changed = none := by
  unfold stepMode; split
  · simp [h]
  · exact h

theorem stepEffect_cfg_none (C : ShellyConsts) (model : String)
    (st : BlockState) (b : Block) (h : st.last_cfg_changed = none) :
    (stepEffect C model st b).last_cfg_changed = none := by
  unfold stepEffect; split
  · simp [h]
  · exact h

theorem stepInput_cfg (C : ShellyConsts) (d : Option String) (h : String)
    (st : BlockState) (b : Block) :
    (stepInput C d h st b).1.last_cfg_changed = st.last_cfg_changed := by
  simp only [stepInput]
  repeat' split
  all_goals rfl

theorem stepInput_last_mode (C : ShellyConsts) (d : Option String) (h : String)
    (st : BlockState) (b : Block) :
    (stepInput C d h st b).1.last_mode = st.last_mode := by
  simp only [stepInput]
  repeat' split
  all_goals rfl

theorem stepInput_last_effect (C : ShellyConsts) (d : Option String) (h : String)
    (st : BlockState) (b : Block) :
    (stepInput C d h st b).1.last_effect = st.last_effect := by
  simp only [stepInput]
  repeat' split
  all_goals rfl

theorem stepInput_not_input (C : ShellyConsts) (d : Option String) (h : String)
    (st : BlockState) (b : Block) (hb : ¬ isInputBlock b) :
    stepInput C d h st b = (st, [], []) := by
  simp [stepInput, hb]

theorem stepInput_baseline_other (C : ShellyConsts) (d : Option String)
    (h : String) (st : BlockState) (b : Block) (c : Int) (hc : c ≠ chanKey b) :
    (stepInput C d h st b).1.last_input_events_count c =
      st.last_input_events_count c := by
  simp only [stepInput]
  repeat' split
  all_goals simp [hc]

theorem stepInput_baseline_self (C : ShellyConsts) (d : Option String)
    (h : String) (st : BlockState) (b : Block) (hb : isInputBlock b) :
    (stepInput C d h st b).1.last_input_events_count (chanKey b) =
      some b.inputEventCnt := by
  simp only [stepInput, if_pos hb]
  repeat' split
  all_goals simp

theorem stepInput_events_filter_ne (C : ShellyConsts) (d : Option String)
    (h : String) (st : BlockState) (b : Block) (ch : Int)
    (hne : isInputBlock b → chanKey b ≠ ch) :
    (stepInput C d h st b).2.1.filter (fun e => e.channel == ch) = [] := by
  by_cases hb : isInputBlock b
  · simp only [stepInput, if_pos hb]
    repeat' split
    all_goals simp_all
  · rw [stepInput_not_input _ _ _ _ _ hb]; rfl

theorem stepInput_warns_nil (C : ShellyConsts) (d : Option String) (h : String)
    (st : BlockState) (b : Block)
    (hw : isInputBlock b → b.inputEvent = "" ∨
      (C.INPUTS_EVENTS_DICT.lookup b.inputEvent).isSome) :
    (stepInput C d h st b).2.2 = [] := by
  by_cases hb : isInputBlock b
  · simp only [stepInput, if_pos hb]
    repeat' split
    all_goals simp_all
  · rw [stepInput_not_input _ _ _ _ _ hb]

theorem seed_last_cfg (C : ShellyConsts) (model : String) (blocks : List Block)
    (st : BlockState) :
    (seedButtonBaseline C model blocks st).last_cfg_changed =
      st.last_cfg_changed := by
  unfold seedButtonBaseline
  repeat' split
  all_goals rfl

theorem seed_last_mode (C : ShellyConsts) (model : String) (blocks : List Block)
    (st : BlockState) :
    (seedButtonBaseline C model blocks st).last_mode = st.last_mode := by
  unfold seedButtonBaseline
  repeat' split
  all_goals rfl

theorem seed_last_effect (C : ShellyConsts) (model : String)
    (blocks : List Block) (st : BlockState) :
    (seedButtonBaseline C model blocks st).last_effect = st.last_effect := by
  unfold seedButtonBaseline
  repeat' split
  all_goals rfl

theorem seed_baseline_some (C : ShellyConsts) (model : String)
    (blocks : List Block) (st : BlockState) (c : Int) (v : Int)
    (h : st.last_input_events_count c = some v) :
    (seedButtonBaseline C model blocks st).last_input_events_count c = some v := by
  unfold seedButtonBaseline
  split
  · rename_i hcond
    split
    · split
      · by_cases hc : c = 1
        · rw [hc] at h; rw [hcond.2] at h; cases h
        · simpa [hc] using h
      · exact h
    · exact h
  · exact h

theorem processBlocks_cfg (C : ShellyConsts) (model : String)
    (d : Option String) (h : String) :
    ∀ (bs : List Block) (st : BlockState) (cfg : Int),
      (processBlocks C model d h bs st cfg).cfg = finalCfgChanged bs cfg := by
  intro bs
  induction bs with
  | nil => intro st cfg; rfl
  | cons b bs ih =>
    intro st cfg
    simp only [processBlocks, finalCfgChanged]
    exact ih _ _

theorem processBlocks_cfg_changed_none (C : ShellyConsts) (model : String)
    (d : Option String) (h : String) :
    ∀ (bs : List Block) (st : BlockState) (cfg : Int),
      st.last_cfg_changed = none →
      (processBlocks C model d h bs st cfg).state.last_cfg_changed = none := by
  intro bs
  induction bs with
  | nil => intro st cfg hst; exact hst
  | cons b bs ih =>
    intro st cfg hst
    simp only [processBlocks]
    exact ih _ _ (by
      rw [stepInput_cfg]
      exact stepEffect_cfg_none _ _ _ _ (stepMode_cfg_none _ _ _ _ hst))

theorem processBlocks_cfg_changed_const (C : ShellyConsts) (model : String)
    (d : Option String) (h : String)
    (hm1 : model ∉ C.DUAL_MODE_LIGHT_MODELS)
    (hm2 : model ∉ C.MODELS_SUPPORTING_LIGHT_EFFECTS) :
    ∀ (bs : List Block) (st : BlockState) (cfg : Int),
      (processBlocks C model d h bs st cfg).state.last_cfg_changed =
        st.last_cfg_changed := by
  intro bs
  induction bs with
  | nil => intro st cfg; rfl
  | cons b bs ih =>
    intro st cfg
    simp only [processBlocks]
    rw [ih, stepInput_cfg]
    simp [stepMode, stepEffect, hm1, hm2]

theorem processBlocks_last_mode_const (C : ShellyConsts) (model : String)
    (d : Option String) (h : String) :
    ∀ (bs : List Block), (∀ b ∈ bs, "mode" ∉ b.sensor_ids) →
      ∀ (st : BlockState) (cfg : Int),
        (processBlocks C model d h bs st cfg).state.last_mode = st.last_mode := by
  intro bs
  induction bs with
  | nil => intro _ st cfg; rfl
  | cons b bs ih =>
    intro hb st cfg
    simp only [processBlocks]
    rw [ih (fun b' hb' => hb b' (List.mem_cons_of_mem _ hb')),
      stepInput_last_mode, stepEffect_last_mode]
    have hmode := hb b (List.mem_cons_self _ _)
    simp [stepMode, hmode]

theorem processBlocks_last_effect_const (C : ShellyConsts) (model : String)
    (d : Option String) (h : String) :
    ∀ (bs : List Block), (∀ b ∈ bs, "effect" ∉ b.sensor_ids) →
      ∀ (st : BlockState) (cfg : Int),
        (processBlocks C model d h bs st cfg).state.last_effect =
          st.last_effect := by
  intro bs
  induction bs with
  | nil => intro _ st cfg; rfl
  | cons b bs ih =>
    intro hb st cfg
    simp only [processBlocks]
    rw [ih (fun b' hb' => hb b' (List.mem_cons_of_mem _ hb')),
      stepInput_last_effect]
    have heff := hb b (List.mem_cons_self _ _)
    simp [stepEffect, heff, stepMode_last_effect]

theorem stepInput_baseline_frame (C : ShellyConsts) (d : Option String)
    (h : String) (st : BlockState) (b : Block) (ch : Int)
    (hne : isInputBlock b → chanKey b ≠ ch) :
    (stepInput C d h st b).1.last_input_events_count ch =
      st.last_input_events_count ch := by
  by_cases hb : isInputBlock b
  · exact stepInput_baseline_other _ _ _ _ _ _ (fun hc => (hne hb) hc.symm)
  · rw [stepInput_not_input _ _ _ _ _ hb]

theorem processBlocks_channel_frame (C : ShellyConsts) (model : String)
    (d : Option String) (h : String) (ch : Int) :
    ∀ (bs : List Block), (∀ b ∈ bs, isInputBlock b → chanKey b ≠ ch) →
      ∀ (st : BlockState) (cfg : Int),
        (processBlocks C model d h bs st cfg).state.last_input_events_count ch =
          st.last_input_events_count ch ∧
        (processBlocks C model d h bs st cfg).events.filter
          (fun e => e.channel == ch) = [] := by
  intro bs
  induction bs with
  | nil => intro _ st cfg; exact ⟨rfl, rfl⟩
  | cons b bs ih =>
    intro hb st cfg
    have hrest := ih (fun b' hb' => hb b' (List.mem_cons_of_mem _ hb'))
    constructor
    · simp only [processBlocks]
      rw [(hrest _ _).1,
        stepInput_baseline_frame _ _ _ _ _ _ (hb b (List.mem_cons_self _ _)),
        stepEffect_last_input, stepMode_last_input]
    · simp only [processBlocks]
      rw [List.filter_append, (hrest _ _).2,
        stepInput_events_filter_ne _ _ _ _ _ _ (hb b (List.mem_cons_self _ _))]
      rfl

theorem processBlocks_append (C : ShellyConsts) (model : String)
    (d : Option String) (h : String) :
    ∀ (xs ys : List Block) (st : BlockState) (cfg : Int),
      processBlocks C model d h (xs ++ ys) st cfg =
        let r := processBlocks C model d h xs st cfg
        let r2 := processBlocks C model d h ys r.state r.cfg
        ⟨r2.state, r2.cfg, r.events ++ r2.events, r.warns ++ r2.warns⟩ := by
  intro xs
  induction xs with
  | nil => intro ys st cfg; rfl
  | cons b xs ih =>
    intro ys st cfg
    simp only [List.cons_append, processBlocks, List.append_eq]
    rw [ih]
    simp

theorem processBlocks_no_warn (C : ShellyConsts) (model : String)
    (d : Option String) (h : String) :
    ∀ (bs : List Block),
      (∀ b ∈ bs, isInputBlock b → b.inputEvent = "" ∨
        (C.INPUTS_EVENTS_DICT.lookup b.inputEvent).isSome) →
      ∀ (st : BlockState) (cfg : Int),
        (processBlocks C model d h bs st cfg).warns = [] := by
  intro bs
  induction bs with
  | nil => intro _ st cfg; rfl
  | cons b bs ih =>
    intro hb st cfg
    simp only [processBlocks]
    rw [ih (fun b' hb' => hb b' (List.mem_cons_of_mem _ hb')),
      stepInput_warns_nil _ _ _ _ _ (hb b (List.mem_cons_self _ _))]
    rfl

theorem blockHandler_initialized (C : ShellyConsts) (model : String)
    (dev_id : Option String) (device : BlockDevice) (st : BlockState)
    (hinit : device.initialized = true) (hblocks : device.blocks ≠ []) :
    BlockDeviceWrapper_device_updates_handler C model dev_id device st =
      let st0 := seedButtonBaseline C model device.blocks st
      let r := processBlocks C model dev_id device.hostname device.blocks st0 0
      ⟨{ r.state with last_cfg_changed := some r.cfg }, r.events, r.warns,
        (match r.state.last_cfg_changed with
         | some v => decide (r.cfg > v)
         | none => false), none⟩ := by
  unfold BlockDeviceWrapper_device_updates_handler
  rw [if_pos, if_neg hblocks]
  exact hinit

/-- C1: the OTA trigger is claimed to swallow device-call failures on both
coordinators. The block coordinator does not: with a stable update
available, status "idle", and a device call that raises OSError or times
out, the except clause logs the failure but the following debug log reads
the never-assigned local variable result, so the operation raises
UnboundLocalError to its caller. The RPC coordinator returns normally on
the same failure. -/
theorem C1_block_ota_raises_on_device_failure :
    (BlockDeviceWrapper_async_trigger_ota_update false
      ⟨true, none, "idle", "1.5.7"⟩ .osErr).raised = some .unboundLocalError ∧
    (BlockDeviceWrapper_async_trigger_ota_update false
      ⟨true, none, "idle", "1.5.7"⟩ .timeoutErr).raised =
        some .unboundLocalError ∧
    (RpcDeviceWrapper_async_trigger_ota_update false
      ⟨[("stable", ⟨"2.0.0"⟩)], false⟩ .osErr).raised = none := by
  decide

/-- C3 counterexample: on the RPC coordinator a status snapshot that
reports an OTA already in progress but still lists a stable update does
not reject: the device update command is issued (called is some false,
meaning trigger_ota_update ran with beta false) and no warning is
logged. The RPC trigger has no in-progress guard. -/
theorem C3_counterexample_rpc_in_progress :
    (RpcDeviceWrapper_async_trigger_ota_update false
      ⟨[("stable", ⟨"2.0.0"⟩)], true⟩ (.ok "null")).called = some false ∧
    (RpcDeviceWrapper_async_trigger_ota_update false
      ⟨[("stable", ⟨"2.0.0"⟩)], true⟩ (.ok "null")).warned = none := by
  decide

/-- C3 amended: the no-update-available rejections hold on both
coordinators (block: stable channel without has_update, beta channel with
falsy beta_version; RPC: empty available_updates, or no entry for the
requested channel), and the update-in-progress rejection holds on the
block coordinator only; every rejection logs a warning and issues no
device command. -/
theorem C3_ota_rejections_no_command :
    (∀ (beta : Bool) (ud : BlockUpdateData) (call : OtaCallOutcome),
      ((beta = false ∧ ud.has_update = false) ∨
       (beta = true ∧ ud.beta_version.getD "" = "") ∨
       ud.status = "updating") →
      (BlockDeviceWrapper_async_trigger_ota_update beta ud call).called = none ∧
      (BlockDeviceWrapper_async_trigger_ota_update beta ud call).warned.isSome
        = true) ∧
    (∀ (beta : Bool) (status : RpcSysStatus) (call : OtaCallOutcome),
      (status.available_updates.isEmpty = true ∨
       (beta = false ∧ (status.available_updates.lookup "stable").isNone = true) ∨
       (beta = true ∧ (status.available_updates.lookup "beta").isNone = true)) →
      (RpcDeviceWrapper_async_trigger_ota_update beta status call).called = none ∧
      (RpcDeviceWrapper_async_trigger_ota_update beta status call).warned.isSome
        = true) := by
  constructor
  · intro beta ud call hcond
    unfold BlockDeviceWrapper_async_trigger_ota_update
    split
    · exact ⟨rfl, rfl⟩
    · split
      · exact ⟨rfl, rfl⟩
      · split
        · exact ⟨rfl, rfl⟩
        · rename_i h1 h2 h3
          exfalso
          rcases hcond with ⟨hb, hu⟩ | ⟨hb, hv⟩ | hs
          · exact h1 ⟨hu, hb⟩
          · exact h2 ⟨hb, hv⟩
          · exact h3 hs
  · intro beta status call hcond
    unfold RpcDeviceWrapper_async_trigger_ota_update
    simp only []
    by_cases h1 : status.available_updates.isEmpty = true ∨
        (status.available_updates.lookup "stable").isNone = true ∧ beta = false
    · rw [if_pos h1]; exact ⟨rfl, rfl⟩
    · rw [if_neg h1]
      by_cases h2 : beta = true ∧
          (status.available_updates.lookup "beta").isNone = true
      · rw [if_pos h2]; exact ⟨rfl, rfl⟩
      · rw [if_neg h2]
        exfalso
        rcases hcond with he | ⟨hb, hs⟩ | ⟨hb, hv⟩
        · exact h1 (Or.inl he)
        · exact h1 (Or.inr ⟨hs, hb⟩)
        · exact h2 ⟨hb, hv⟩

/-- C3 witness: a block device with no stable update and beta not
requested rejects with a warning and no device command. -/
theorem C3_ota_rejections_witness :
    (BlockDeviceWrapper_async_trigger_ota_update false
      ⟨false, none, "idle", "1.0.0"⟩ (.ok "")).called = none ∧
    (BlockDeviceWrapper_async_trigger_ota_update false
      ⟨false, none, "idle", "1.0.0"⟩ (.ok "")).warned.isSome = true :=
  C3_ota_rejections_no_command.1 false ⟨false, none, "idle", "1.0.0"⟩ (.ok "")
    (Or.inl ⟨rfl, rfl⟩)

/-- C4 counterexample: in the block coordinator's fetch an expiry of the
external timeout does not produce the typed update-failed signal; it
escapes as asyncio.TimeoutError, a different exception. -/
theorem C4_counterexample_timeout_escapes :
    isUpdateFailedSignal
      (BlockDeviceWrapper_async_update_data none .timesOut).raised = false ∧
    (BlockDeviceWrapper_async_update_data none .timesOut).raised =
      some .asyncioTimeout ∧
    isUpdateFailedSignal
      (BlockDeviceWrapper_async_update_data none .osErr).raised = true := by
  decide

/-- C4 amended: in every coordinator variant's fetch a transport-level
I/O error (and the RPC-layer timeout in the polling wrapper) is mapped to
the typed update-failed signal, while expiry of the fixed external timeout
escapes as asyncio.TimeoutError; the generic polling framework (modelled
from the spec) then records both as the same failed-update outcome. -/
theorem C4_fetch_failure_mapping :
    (BlockDeviceWrapper_async_update_data none .osErr).raised =
      some (.updateFailed "Error fetching data") ∧
    (BlockDeviceWrapper_async_update_data none .timesOut).raised =
      some .asyncioTimeout ∧
    (RpcDeviceWrapper_async_update_data false .osErr).raised =
      some (.updateFailed "Device disconnected") ∧
    (RpcDeviceWrapper_async_update_data false .timesOut).raised =
      some .asyncioTimeout ∧
    (RpcPollingWrapper_async_update_data true .osErr).raised =
      some (.updateFailed "Device disconnected") ∧
    (RpcPollingWrapper_async_update_data true .rpcTimeoutErr).raised =
      some (.updateFailed "Device disconnected") ∧
    (RpcPollingWrapper_async_update_data true .timesOut).raised =
      some .asyncioTimeout ∧
    frameworkRefreshSucceeded
        (BlockDeviceWrapper_async_update_data none .timesOut).raised =
      frameworkRefreshSucceeded
        (BlockDeviceWrapper_async_update_data none .osErr).raised ∧
    frameworkRefreshSucceeded
        (RpcDeviceWrapper_async_update_data false .timesOut).raised =
      frameworkRefreshSucceeded
        (RpcDeviceWrapper_async_update_data false .osErr).raised ∧
    frameworkRefreshSucceeded
        (RpcPollingWrapper_async_update_data true .timesOut).raised =
      frameworkRefreshSucceeded
        (RpcPollingWrapper_async_update_data true .osErr).raised := by
  decide

/-- C8: a block coordinator configured with a nonzero sleep period fails
every fetch with the typed update-failed signal carrying the
sleeping-device reason and never invokes the device's update operation,
whatever the device call would have done. -/
theorem C8_sleeping_device_never_polled (n : Nat) (call : DeviceCallOutcome)
    (hn : n ≠ 0) :
    BlockDeviceWrapper_async_update_data (some n) call =
      ⟨false, some (.updateFailed ("Sleeping device did not update within " ++
        toString n ++ " seconds interval"))⟩ := by
  simp [BlockDeviceWrapper_async_update_data, hn]

/-- C8 witness: with a 300 second sleep period the fetch raises the
sleeping-device update-failed signal without calling the device. -/
theorem C8_sleeping_device_never_polled_witness :
    BlockDeviceWrapper_async_update_data (some 300) .ok =
      ⟨false, some (.updateFailed
        "Sleeping device did not update within 300 seconds interval")⟩ := by
  rw [C8_sleeping_device_never_polled 300 .ok (by decide)]
  decide

/-- C9: whenever the device handle reports initialized false, both
updates handlers return immediately: no events, no warnings, no reload
arming, and the stored deduplication state is returned unchanged. -/
theorem C9_uninitialized_handler_noop (Cb Cr : ShellyConsts) (model : String)
    (dev_id rdev_id : Option String) (bdev : BlockDevice) (st : BlockState)
    (rdev : RpcDevice) (rst : RpcState)
    (hb : bdev.initialized = false) (hr : rdev.initialized = false) :
    BlockDeviceWrapper_device_updates_handler Cb model dev_id bdev st =
      ⟨st, [], [], false, none⟩ ∧
    RpcDeviceWrapper_device_updates_handler Cr rdev_id rdev rst =
      ⟨rst, [], 0⟩ := by
  constructor
  · unfold BlockDeviceWrapper_device_updates_handler
    rw [if_neg (by simp [hb])]
  · unfold RpcDeviceWrapper_device_updates_handler
    rw [if_pos (Or.inl hr)]

/-- C9 witness: concrete uninitialized block and RPC devices leave
concrete states untouched and produce no effects. -/
theorem C9_uninitialized_handler_noop_witness :
    BlockDeviceWrapper_device_updates_handler shellyConsts "SHSW-1" none
      ⟨false, [], "host-a"⟩ emptyBlockState =
      ⟨emptyBlockState, [], [], false, none⟩ ∧
    RpcDeviceWrapper_device_updates_handler shellyConsts none
      ⟨false, false, none, "host-b"⟩ ⟨none⟩ = ⟨⟨none⟩, [], 0⟩ :=
  C9_uninitialized_handler_noop shellyConsts shellyConsts "SHSW-1" none none
    ⟨false, [], "host-a"⟩ emptyBlockState ⟨false, false, none, "host-b"⟩
    ⟨none⟩ rfl rfl

/-- C10: on the block coordinator with beta requested, a nonempty
beta_version and a status other than updating always issue the device
update command with the beta flag, logging the beta version as target,
regardless of the stable has_update flag; no rejection warning fires. -/
theorem C10_block_beta_ota_issued (ud : BlockUpdateData)
    (call : OtaCallOutcome) (v : String) (hv : ud.beta_version = some v)
    (hvne : v ≠ "") (hst : ud.status ≠ "updating") :
    (BlockDeviceWrapper_async_trigger_ota_update true ud call).called =
      some true ∧
    (BlockDeviceWrapper_async_trigger_ota_update true ud call).logged_target =
      some v ∧
    (BlockDeviceWrapper_async_trigger_ota_update true ud call).warned = none := by
  unfold BlockDeviceWrapper_async_trigger_ota_update
  rw [if_neg (by simp), if_neg (by simp [hv, hvne]), if_neg hst]
  cases call <;> simp [hv]

/-- C10 witness: a block device with has_update false but a beta version
present and idle status issues the beta update command. -/
theorem C10_block_beta_ota_issued_witness :
    (BlockDeviceWrapper_async_trigger_ota_update true
      ⟨false, some "1.6.0-beta", "idle", ""⟩ (.ok "")).called = some true ∧
    (BlockDeviceWrapper_async_trigger_ota_update true
      ⟨false, some "1.6.0-beta", "idle", ""⟩ (.ok "")).logged_target =
      some "1.6.0-beta" ∧
    (BlockDeviceWrapper_async_trigger_ota_update true
      ⟨false, some "1.6.0-beta", "idle", ""⟩ (.ok "")).warned = none :=
  C10_block_beta_ota_issued ⟨false, some "1.6.0-beta", "idle", ""⟩ (.ok "")
    "1.6.0-beta" rfl (by decide) (by decide)

theorem stepMode_resets (C : ShellyConsts) (model : String) (st : BlockState)
    (b : Block) (h1 : model ∈ C.DUAL_MODE_LIGHT_MODELS)
    (h2 : "mode" ∈ b.sensor_ids) (h3 : st.last_mode ≠ some b.mode) :
    (stepMode C model st b).last_cfg_changed = none := by
  unfold stepMode
  rw [if_pos ⟨h1, h2⟩]
  simp [h3]

theorem stepEffect_resets (C : ShellyConsts) (model : String) (st : BlockState)
    (b : Block) (h1 : model ∈ C.MODELS_SUPPORTING_LIGHT_EFFECTS)
    (h2 : "effect" ∈ b.sensor_ids) (h3 : st.last_effect ≠ some b.effect) :
    (stepEffect C model st b).last_cfg_changed = none := by
  unfold stepEffect
  rw [if_pos ⟨h1, h2⟩]
  simp [h3]

theorem stepInput_first_observation (C : ShellyConsts) (d : Option String)
    (h : String) (st : BlockState) (b : Block) (hb : isInputBlock b)
    (hbase : st.last_input_events_count (chanKey b) = none) :
    (stepInput C d h st b).2.1 = [] ∧ (stepInput C d h st b).2.2 = [] := by
  unfold stepInput
  rw [if_pos hb]
  simp only [hbase]
  rw [if_pos (Or.inl trivial)]
  exact ⟨rfl, rfl⟩

theorem stepInput_fires (C : ShellyConsts) (d : Option String) (h : String)
    (st : BlockState) (b : Block) (base : Int) (ct : String)
    (hb : isInputBlock b)
    (hbase : st.last_input_events_count (chanKey b) = some base)
    (hcnt : b.inputEventCnt ≠ base)
    (hev : b.inputEvent ≠ "")
    (hct : C.INPUTS_EVENTS_DICT.lookup b.inputEvent = some ct) :
    (stepInput C d h st b).2.1 = [⟨d, h, chanKey b, ct, 1⟩] ∧
    (stepInput C d h st b).2.2 = [] := by
  unfold stepInput
  rw [if_pos hb]
  simp only [hbase]
  rw [if_neg (by simp [hev, Ne.symm hcnt]), hct]
  exact ⟨rfl, rfl⟩

theorem stepInput_unrecognized (C : ShellyConsts) (d : Option String)
    (h : String) (st : BlockState) (b : Block) (base : Int)
    (hb : isInputBlock b)
    (hbase : st.last_input_events_count (chanKey b) = some base)
    (hcnt : b.inputEventCnt ≠ base)
    (hev : b.inputEvent ≠ "")
    (hct : C.INPUTS_EVENTS_DICT.lookup b.inputEvent = none) :
    (stepInput C d h st b).2.1 = [] ∧
    (stepInput C d h st b).2.2 = [b.inputEvent] := by
  unfold stepInput
  rw [if_pos hb]
  simp only [hbase]
  rw [if_neg (by simp [hev, Ne.symm hcnt]), hct]
  exact ⟨rfl, rfl⟩

theorem handler_final_cfg (C : ShellyConsts) (model : String)
    (dev_id : Option String) (device : BlockDevice) (st : BlockState)
    (hinit : device.initialized = true) (hne : device.blocks ≠ []) :
    (BlockDeviceWrapper_device_updates_handler C model dev_id device
      st).state.last_cfg_changed = some (finalCfgChanged device.blocks 0) := by
  rw [blockHandler_initialized C model dev_id device st hinit hne]
  dsimp only []
  rw [processBlocks_cfg]

theorem handler_not_armed_of_none (C : ShellyConsts) (model : String)
    (dev_id : Option String) (device : BlockDevice) (st : BlockState)
    (hinit : device.initialized = true) (hne : device.blocks ≠ [])
    (hnone : (processBlocks C model dev_id device.hostname device.blocks
      (seedButtonBaseline C model device.blocks st) 0).state.last_cfg_changed =
        none) :
    (BlockDeviceWrapper_device_updates_handler C model dev_id device
      st).reload_armed = false := by
  rw [blockHandler_initialized C model dev_id device st hinit hne]
  dsimp only []
  rw [hnone]

theorem handler_armed_of_some (C : ShellyConsts) (model : String)
    (dev_id : Option String) (device : BlockDevice) (st : BlockState) (v : Int)
    (hinit : device.initialized = true) (hne : device.blocks ≠ [])
    (hsome : (processBlocks C model dev_id device.hostname device.blocks
      (seedButtonBaseline C model device.blocks st) 0).state.last_cfg_changed =
        some v) :
    (BlockDeviceWrapper_device_updates_handler C model dev_id device
      st).reload_armed = decide (finalCfgChanged device.blocks 0 > v) := by
  rw [blockHandler_initialized C model dev_id device st hinit hne]
  dsimp only []
  rw [hsome, processBlocks_cfg]

theorem processBlocks_cfg_none_after_reset (C : ShellyConsts) (model : String)
    (d : Option String) (h : String) (pre post : List Block) (b : Block)
    (st0 : BlockState) (cfg : Int)
    (hreset : (stepEffect C model (stepMode C model
      (processBlocks C model d h pre st0 cfg).state b) b).last_cfg_changed =
        none) :
    (processBlocks C model d h (pre ++ b :: post) st0 cfg).state.last_cfg_changed
      = none := by
  rw [processBlocks_append]
  dsimp only []
  simp only [processBlocks]
  exact processBlocks_cfg_changed_none _ _ _ _ _ _ _
    (by rw [stepInput_cfg]; exact hreset)

theorem handler_single_channel (C : ShellyConsts) (model : String)
    (dev_id : Option String) (device : BlockDevice) (st : BlockState)
    (pre post : List Block) (b : Block) (ch : Int)
    (hinit : device.initialized = true)
    (hblocks : device.blocks = pre ++ b :: post)
    (hpre : ∀ b' ∈ pre, isInputBlock b' → chanKey b' ≠ ch)
    (hpost : ∀ b' ∈ post, isInputBlock b' → chanKey b' ≠ ch) :
    (BlockDeviceWrapper_device_updates_handler C model dev_id device
        st).events.filter (fun e => e.channel == ch) =
      (stepInput C dev_id device.hostname (stepEffect C model (stepMode C model
        (processBlocks C model dev_id device.hostname pre
          (seedButtonBaseline C model device.blocks st) 0).state b) b)
        b).2.1.filter (fun e => e.channel == ch) ∧
    (BlockDeviceWrapper_device_updates_handler C model dev_id device
        st).state.last_input_events_count ch =
      (stepInput C dev_id device.hostname (stepEffect C model (stepMode C model
        (processBlocks C model dev_id device.hostname pre
          (seedButtonBaseline C model device.blocks st) 0).state b) b)
        b).1.last_input_events_count ch ∧
    (stepEffect C model (stepMode C model
        (processBlocks C model dev_id device.hostname pre
          (seedButtonBaseline C model device.blocks st) 0).state b)
        b).last_input_events_count ch =
      (seedButtonBaseline C model device.blocks st).last_input_events_count ch := by
  have hnonempty : device.blocks ≠ [] := by rw [hblocks]; simp
  rw [blockHandler_initialized C model dev_id device st hinit hnonempty]
  dsimp only []
  rw [hblocks, processBlocks_append]
  dsimp only []
  simp only [processBlocks]
  refine ⟨?_, ?_, ?_⟩
  · rw [List.filter_append, List.filter_append,
      (processBlocks_channel_frame C model dev_id device.hostname ch pre hpre
        _ _).2,
      (processBlocks_channel_frame C model dev_id device.hostname ch post hpost
        _ _).2]
    simp
  · rw [(processBlocks_channel_frame C model dev_id device.hostname ch post
      hpost _ _).1]
  · rw [stepEffect_last_input, stepMode_last_input,
      (processBlocks_channel_frame C model dev_id device.hostname ch pre hpre
        _ _).1]

theorem handler_warns_single (C : ShellyConsts) (model : String)
    (dev_id : Option String) (device : BlockDevice) (st : BlockState)
    (pre post : List Block) (b : Block)
    (hinit : device.initialized = true)
    (hblocks : device.blocks = pre ++ b :: post)
    (hqpre : ∀ b' ∈ pre, isInputBlock b' → b'.inputEvent = "" ∨
      (C.INPUTS_EVENTS_DICT.lookup b'.inputEvent).isSome)
    (hqpost : ∀ b' ∈ post, isInputBlock b' → b'.inputEvent = "" ∨
      (C.INPUTS_EVENTS_DICT.lookup b'.inputEvent).isSome) :
    (BlockDeviceWrapper_device_updates_handler C model dev_id device st).warns =
      (stepInput C dev_id device.hostname (stepEffect C model (stepMode C model
        (processBlocks C model dev_id device.hostname pre
          (seedButtonBaseline C model device.blocks st) 0).state b) b)
        b).2.2 := by
  have hnonempty : device.blocks ≠ [] := by rw [hblocks]; simp
  rw [blockHandler_initialized C model dev_id device st hinit hnonempty]
  dsimp only []
  rw [hblocks, processBlocks_append]
  dsimp only []
  simp only [processBlocks]
  rw [processBlocks_no_warn C model dev_id device.hostname pre hqpre,
    processBlocks_no_warn C model dev_id device.hostname post hqpost]
  simp

/-- C2 counterexample: on a button model (SHBTN-1) whose device block
reports wakeupEvent exactly the one-element list with "button", the handler
seeds the channel 1 baseline with -1 before the loop, so the first-ever
observation of the channel 1 counter (no prior baseline stored, counter 5,
event type "S") emits one click event instead of none. -/
theorem C2_counterexample_button_first_observation_fires :
    (BlockDeviceWrapper_device_updates_handler shellyConsts "SHBTN-1" none
      ⟨true,
        [⟨"device", none, [], "", 0, "", 0, 0, ["button"]⟩,
         ⟨"sensor", none, ["inputEvent", "inputEventCnt"], "", 0, "S", 5, 0, []⟩],
        "shelly-host"⟩ emptyBlockState).events =
      [⟨none, "shelly-host", 1, "single", 1⟩] ∧
    (BlockDeviceWrapper_device_updates_handler shellyConsts "SHBTN-1" none
      ⟨true,
        [⟨"device", none, [], "", 0, "", 0, 0, ["button"]⟩,
         ⟨"sensor", none, ["inputEvent", "inputEventCnt"], "", 0, "S", 5, 0, []⟩],
        "shelly-host"⟩ emptyBlockState).state.last_input_events_count 1 =
      some 5 := by
  decide

/-- C2 amended: for every channel of every device model, if no prior
baseline is stored for the channel and the battery-button seeding also
leaves the channel without a baseline (which fails only on SHBTN models
for channel 1 with a button wakeup device block), then the first-ever
observation of that channel's event counter emits no click event and
records the observed counter as the new baseline. -/
theorem C2_first_observation_silent (C : ShellyConsts) (model : String)
    (dev_id : Option String) (device : BlockDevice) (st : BlockState)
    (pre post : List Block) (b : Block) (ch : Int)
    (hinit : device.initialized = true)
    (hblocks : device.blocks = pre ++ b :: post)
    (hb : isInputBlock b) (hch : chanKey b = ch)
    (hpre : ∀ b' ∈ pre, isInputBlock b' → chanKey b' ≠ ch)
    (hpost : ∀ b' ∈ post, isInputBlock b' → chanKey b' ≠ ch)
    (hbase : st.last_input_events_count ch = none)
    (hseed : (seedButtonBaseline C model device.blocks
      st).last_input_events_count ch = none) :
    (BlockDeviceWrapper_device_updates_handler C model dev_id device
      st).events.filter (fun e => e.channel == ch) = [] ∧
    (BlockDeviceWrapper_device_updates_handler C model dev_id device
      st).state.last_input_events_count ch = some b.inputEventCnt := by
  obtain ⟨hevents, hstate, hentry⟩ := handler_single_channel C model dev_id
    device st pre post b ch hinit hblocks hpre hpost
  subst hch
  obtain ⟨hfire, -⟩ := stepInput_first_observation C dev_id device.hostname _ b
    hb (hentry.trans hseed)
  constructor
  · rw [hevents, hfire]; rfl
  · rw [hstate, stepInput_baseline_self _ _ _ _ _ hb]

/-- C2 witness: a non-button model with one input block on channel 1,
counter 5, event type "S" and no stored baseline emits nothing and stores
baseline 5. -/
theorem C2_first_observation_silent_witness :
    (BlockDeviceWrapper_device_updates_handler shellyConsts "SHSW-1" none
      ⟨true,
        [⟨"sensor", none, ["inputEvent", "inputEventCnt"], "", 0, "S", 5, 0, []⟩],
        "host-c"⟩ emptyBlockState).events.filter (fun e => e.channel == 1) =
      [] ∧
    (BlockDeviceWrapper_device_updates_handler shellyConsts "SHSW-1" none
      ⟨true,
        [⟨"sensor", none, ["inputEvent", "inputEventCnt"], "", 0, "S", 5, 0, []⟩],
        "host-c"⟩ emptyBlockState).state.last_input_events_count 1 = some 5 :=
  C2_first_observation_silent shellyConsts "SHSW-1" none
    ⟨true,
      [⟨"sensor", none, ["inputEvent", "inputEventCnt"], "", 0, "S", 5, 0, []⟩],
      "host-c"⟩ emptyBlockState []
    [] ⟨"sensor", none, ["inputEvent", "inputEventCnt"], "", 0, "S", 5, 0, []⟩ 1
    rfl rfl (by decide) (by decide) (by simp) (by simp) rfl (by decide)

/-- C5: for every channel with a stored baseline, a changed counter
together with a nonempty event type present in the lookup table makes the
handler fire exactly one click event for that channel, carrying the device
identifier, the device hostname, the 1-indexed channel, the canonical
click type from the table and generation 1, and the stored baseline
becomes the observed counter. -/
theorem C5_new_counter_fires_click (C : ShellyConsts) (model : String)
    (dev_id : Option String) (device : BlockDevice) (st : BlockState)
    (pre post : List Block) (b : Block) (ch base : Int) (ct : String)
    (hinit : device.initialized = true)
    (hblocks : device.blocks = pre ++ b :: post)
    (hb : isInputBlock b) (hch : chanKey b = ch)
    (hpre : ∀ b' ∈ pre, isInputBlock b' → chanKey b' ≠ ch)
    (hpost : ∀ b' ∈ post, isInputBlock b' → chanKey b' ≠ ch)
    (hbase : st.last_input_events_count ch = some base)
    (hcnt : b.inputEventCnt ≠ base)
    (hevne : b.inputEvent ≠ "")
    (hct : C.INPUTS_EVENTS_DICT.lookup b.inputEvent = some ct) :
    (BlockDeviceWrapper_device_updates_handler C model dev_id device
      st).events.filter (fun e => e.channel == ch) =
      [⟨dev_id, device.hostname, ch, ct, 1⟩] ∧
    (BlockDeviceWrapper_device_updates_handler C model dev_id device
      st).state.last_input_events_count ch = some b.inputEventCnt := by
  obtain ⟨hevents, hstate, hentry⟩ := handler_single_channel C model dev_id
    device st pre post b ch hinit hblocks hpre hpost
  subst hch
  have hz := hentry.trans (seed_baseline_some C model device.blocks st _ _ hbase)
  obtain ⟨hfire, -⟩ := stepInput_fires C dev_id device.hostname _ b base ct hb
    hz hcnt hevne hct
  constructor
  · rw [hevents, hfire]; simp
  · rw [hstate, stepInput_baseline_self _ _ _ _ _ hb]

/-- C5 witness: baseline 5, counter 6, event type "S" fires exactly one
single click with generation 1 on channel 1 and stores baseline 6. -/
theorem C5_new_counter_fires_click_witness :
    (BlockDeviceWrapper_device_updates_handler shellyConsts "SHSW-25"
      (some "dev-1")
      ⟨true,
        [⟨"sensor", none, ["inputEvent", "inputEventCnt"], "", 0, "S", 6, 0, []⟩],
        "host-d"⟩
      { emptyBlockState with
        last_input_events_count := fun c => if c = 1 then some 5 else none
      }).events.filter (fun e => e.channel == 1) =
      [⟨some "dev-1", "host-d", 1, "single", 1⟩] ∧
    (BlockDeviceWrapper_device_updates_handler shellyConsts "SHSW-25"
      (some "dev-1")
      ⟨true,
        [⟨"sensor", none, ["inputEvent", "inputEventCnt"], "", 0, "S", 6, 0, []⟩],
        "host-d"⟩
      { emptyBlockState with
        last_input_events_count := fun c => if c = 1 then some 5 else none
      }).state.last_input_events_count 1 = some 6 :=
  C5_new_counter_fires_click shellyConsts "SHSW-25" (some "dev-1")
    ⟨true,
      [⟨"sensor", none, ["inputEvent", "inputEventCnt"], "", 0, "S", 6, 0, []⟩],
      "host-d"⟩
    { emptyBlockState with
      last_input_events_count := fun c => if c = 1 then some 5 else none } []
    [] ⟨"sensor", none, ["inputEvent", "inputEventCnt"], "", 0, "S", 6, 0, []⟩ 1
    5 "single" rfl rfl (by decide) (by decide) (by simp) (by simp) rfl
    (by decide) (by decide) (by decide)

/-- C6: for every channel with a stored baseline, a changed counter with a
nonempty event type absent from the lookup table makes the handler emit no
click for that channel, log exactly one warning naming the unrecognized
value (given that no other block warns), still update the channel baseline
to the observed counter, and keep processing the remaining blocks. -/
theorem C6_unrecognized_event_warns (C : ShellyConsts) (model : String)
    (dev_id : Option String) (device : BlockDevice) (st : BlockState)
    (pre post : List Block) (b : Block) (ch base : Int)
    (hinit : device.initialized = true)
    (hblocks : device.blocks = pre ++ b :: post)
    (hb : isInputBlock b) (hch : chanKey b = ch)
    (hpre : ∀ b' ∈ pre, isInputBlock b' → chanKey b' ≠ ch)
    (hpost : ∀ b' ∈ post, isInputBlock b' → chanKey b' ≠ ch)
    (hqpre : ∀ b' ∈ pre, isInputBlock b' → b'.inputEvent = "" ∨
      (C.INPUTS_EVENTS_DICT.lookup b'.inputEvent).isSome)
    (hqpost : ∀ b' ∈ post, isInputBlock b' → b'.inputEvent = "" ∨
      (C.INPUTS_EVENTS_DICT.lookup b'.inputEvent).isSome)
    (hbase : st.last_input_events_count ch = some base)
    (hcnt : b.inputEventCnt ≠ base)
    (hevne : b.inputEvent ≠ "")
    (hct : C.INPUTS_EVENTS_DICT.lookup b.inputEvent = none) :
    (BlockDeviceWrapper_device_updates_handler C model dev_id device
      st).events.filter (fun e => e.channel == ch) = [] ∧
    (BlockDeviceWrapper_device_updates_handler C model dev_id device
      st).warns = [b.inputEvent] ∧
    (BlockDeviceWrapper_device_updates_handler C model dev_id device
      st).state.last_input_events_count ch = some b.inputEventCnt := by
  obtain ⟨hevents, hstate, hentry⟩ := handler_single_channel C model dev_id
    device st pre post b ch hinit hblocks hpre hpost
  have hwarns := handler_warns_single C model dev_id device st pre post b
    hinit hblocks hqpre hqpost
  subst hch
  have hz := hentry.trans (seed_baseline_some C model device.blocks st _ _ hbase)
  obtain ⟨hfire, hwarn⟩ := stepInput_unrecognized C dev_id device.hostname _ b
    base hb hz hcnt hevne hct
  refine ⟨?_, ?_, ?_⟩
  · rw [hevents, hfire]; rfl
  · rw [hwarns, hwarn]
  · rw [hstate, stepInput_baseline_self _ _ _ _ _ hb]

/-- C6 witness: baseline 5, counter 6, unrecognized event type "X" on the
only input block, followed by a second input block on channel 2 whose
baseline is also updated: no click for channel 1, exactly the warning
naming "X", baselines 6 and 9 stored. -/
theorem C6_unrecognized_event_warns_witness :
    (BlockDeviceWrapper_device_updates_handler shellyConsts "SHSW-25" none
      ⟨true,
        [⟨"sensor", none, ["inputEvent", "inputEventCnt"], "", 0, "X", 6, 0, []⟩,
         ⟨"sensor", some 1, ["inputEvent", "inputEventCnt"], "", 0, "", 9, 0, []⟩],
        "host-e"⟩
      { emptyBlockState with
        last_input_events_count := fun c => if c = 1 then some 5 else none
      }).events.filter (fun e => e.channel == 1) = [] ∧
    (BlockDeviceWrapper_device_updates_handler shellyConsts "SHSW-25" none
      ⟨true,
        [⟨"sensor", none, ["inputEvent", "inputEventCnt"], "", 0, "X", 6, 0, []⟩,
         ⟨"sensor", some 1, ["inputEvent", "inputEventCnt"], "", 0, "", 9, 0, []⟩],
        "host-e"⟩
      { emptyBlockState with
        last_input_events_count := fun c => if c = 1 then some 5 else none
      }).warns = ["X"] ∧
    (BlockDeviceWrapper_device_updates_handler shellyConsts "SHSW-25" none
      ⟨true,
        [⟨"sensor", none, ["inputEvent", "inputEventCnt"], "", 0, "X", 6, 0, []⟩,
         ⟨"sensor", some 1, ["inputEvent", "inputEventCnt"], "", 0, "", 9, 0, []⟩],
        "host-e"⟩
      { emptyBlockState with
        last_input_events_count := fun c => if c = 1 then some 5 else none
      }).state.last_input_events_count 1 = some 6 :=
  C6_unrecognized_event_warns shellyConsts "SHSW-25" none
    ⟨true,
      [⟨"sensor", none, ["inputEvent", "inputEventCnt"], "", 0, "X", 6, 0, []⟩,
       ⟨"sensor", some 1, ["inputEvent", "inputEventCnt"], "", 0, "", 9, 0, []⟩],
      "host-e"⟩
    { emptyBlockState with
      last_input_events_count := fun c => if c = 1 then some 5 else none } []
    [⟨"sensor", some 1, ["inputEvent", "inputEventCnt"], "", 0, "", 9, 0, []⟩]
    ⟨"sensor", none, ["inputEvent", "inputEventCnt"], "", 0, "X", 6, 0, []⟩ 1 5
    rfl rfl (by decide) (by decide) (by simp) (by decide) (by simp)
    (by decide) rfl (by decide) (by decide) (by decide)

/-- C7: config-change detection in the block handler. First conjunct: on a
model with neither dual mode nor light effects, a stored baseline v arms
the debounced reload exactly when the final config-changed counter exceeds
v, and the stored baseline is refreshed to that counter. Second conjunct:
an absent baseline (the very first read) never arms. Third and fourth
conjuncts: on dual-mode or effect-capable models, a changed mode or effect
attribute on the first block carrying that attribute resets the stored
baseline to absent, so the reload is suppressed while the baseline is
still refreshed to the observed counter afterwards. -/
theorem C7_cfg_changed_reload_arming :
    (∀ (C : ShellyConsts) (model : String) (dev_id : Option String)
        (device : BlockDevice) (st : BlockState) (v : Int),
      device.initialized = true → device.blocks ≠ [] →
      model ∉ C.DUAL_MODE_LIGHT_MODELS →
      model ∉ C.MODELS_SUPPORTING_LIGHT_EFFECTS →
      st.last_cfg_changed = some v →
      (BlockDeviceWrapper_device_updates_handler C model dev_id device
        st).reload_armed = decide (finalCfgChanged device.blocks 0 > v) ∧
      (BlockDeviceWrapper_device_updates_handler C model dev_id device
        st).state.last_cfg_changed = some (finalCfgChanged device.blocks 0)) ∧
    (∀ (C : ShellyConsts) (model : String) (dev_id : Option String)
        (device : BlockDevice) (st : BlockState),
      st.last_cfg_changed = none →
      (BlockDeviceWrapper_device_updates_handler C model dev_id device
        st).reload_armed = false) ∧
    (∀ (C : ShellyConsts) (model : String) (dev_id : Option String)
        (device : BlockDevice) (st : BlockState) (pre post : List Block)
        (b : Block),
      device.initialized = true → device.blocks = pre ++ b :: post →
      model ∈ C.DUAL_MODE_LIGHT_MODELS → "mode" ∈ b.sensor_ids →
      (∀ b' ∈ pre, "mode" ∉ b'.sensor_ids) →
      st.last_mode ≠ some b.mode →
      (BlockDeviceWrapper_device_updates_handler C model dev_id device
        st).reload_armed = false ∧
      (BlockDeviceWrapper_device_updates_handler C model dev_id device
        st).state.last_cfg_changed = some (finalCfgChanged device.blocks 0)) ∧
    (∀ (C : ShellyConsts) (model : String) (dev_id : Option String)
        (device : BlockDevice) (st : BlockState) (pre post : List Block)
        (b : Block),
      device.initialized = true → device.blocks = pre ++ b :: post →
      model ∈ C.MODELS_SUPPORTING_LIGHT_EFFECTS → "effect" ∈ b.sensor_ids →
      (∀ b' ∈ pre, "effect" ∉ b'.sensor_ids) →
      st.last_effect ≠ some b.effect →
      (BlockDeviceWrapper_device_updates_handler C model dev_id device
        st).reload_armed = false ∧
      (BlockDeviceWrapper_device_updates_handler C model dev_id device
        st).state.last_cfg_changed = some (finalCfgChanged device.blocks 0)) := by
  refine ⟨?_, ?_, ?_, ?_⟩
  · intro C model dev_id device st v hinit hne hm1 hm2 hv
    constructor
    · exact handler_armed_of_some C model dev_id device st v hinit hne
        (by rw [processBlocks_cfg_changed_const C model dev_id device.hostname
          hm1 hm2, seed_last_cfg]; exact hv)
    · exact handler_final_cfg C model dev_id device st hinit hne
  · intro C model dev_id device st hnone
    by_cases hinit : device.initialized = true
    · by_cases hbl : device.blocks = []
      · unfold BlockDeviceWrapper_device_updates_handler
        rw [if_pos hinit, if_pos hbl]
      · exact handler_not_armed_of_none C model dev_id device st hinit hbl
          (processBlocks_cfg_changed_none _ _ _ _ _ _ _
            (by rw [seed_last_cfg]; exact hnone))
    · unfold BlockDeviceWrapper_device_updates_handler
      rw [if_neg hinit]
  · intro C model dev_id device st pre post b hinit hblocks hdual hmode
      hpremode hlastmode
    have hnonempty : device.blocks ≠ [] := by rw [hblocks]; simp
    have hm : (processBlocks C model dev_id device.hostname pre
        (seedButtonBaseline C model device.blocks st) 0).state.last_mode =
        st.last_mode := by
      rw [processBlocks_last_mode_const C model dev_id device.hostname pre
        hpremode, seed_last_mode]
    have hreset : (stepEffect C model (stepMode C model
        (processBlocks C model dev_id device.hostname pre
          (seedButtonBaseline C model device.blocks st) 0).state b)
        b).last_cfg_changed = none :=
      stepEffect_cfg_none _ _ _ _
        (stepMode_resets _ _ _ _ hdual hmode (by rw [hm]; exact hlastmode))
    have hnone : (processBlocks C model dev_id device.hostname device.blocks
        (seedButtonBaseline C model device.blocks st) 0).state.last_cfg_changed
        = none := by
      rw [hblocks] at hreset ⊢
      exact processBlocks_cfg_none_after_reset C model dev_id device.hostname
        pre post b _ 0 hreset
    exact ⟨handler_not_armed_of_none C model dev_id device st hinit hnonempty
        hnone,
      handler_final_cfg C model dev_id device st hinit hnonempty⟩
  · intro C model dev_id device st pre post b hinit hblocks heffects heffect
      hpreeffect hlasteffect
    have hnonempty : device.blocks ≠ [] := by rw [hblocks]; simp
    have hm : (stepMode C model (processBlocks C model dev_id device.hostname
        pre (seedButtonBaseline C model device.blocks st) 0).state
        b).last_effect = st.last_effect := by
      rw [stepMode_last_effect, processBlocks_last_effect_const C model dev_id
        device.hostname pre hpreeffect, seed_last_effect]
    have hreset : (stepEffect C model (stepMode C model
        (processBlocks C model dev_id device.hostname pre
          (seedButtonBaseline C model device.blocks st) 0).state b)
        b).last_cfg_changed = none :=
      stepEffect_resets _ _ _ _ heffects heffect (by rw [hm]; exact hlasteffect)
    have hnone : (processBlocks C model dev_id device.hostname device.blocks
        (seedButtonBaseline C model device.blocks st) 0).state.last_cfg_changed
        = none := by
      rw [hblocks] at hreset ⊢
      exact processBlocks_cfg_none_after_reset C model dev_id device.hostname
        pre post b _ 0 hreset
    exact ⟨handler_not_armed_of_none C model dev_id device st hinit hnonempty
        hnone,
      handler_final_cfg C model dev_id device st hinit hnonempty⟩

/-- C7 witness: concrete instances of all four conjuncts: a counter
increase from baseline 1 to 3 arms the reload and stores 3; an absent
baseline arms nothing; a mode change on a dual-mode bulb and an effect
change on an effect-capable bulb both suppress the reload. -/
theorem C7_cfg_changed_reload_arming_witness :
    (BlockDeviceWrapper_device_updates_handler shellyConsts "SHSW-1" none
      ⟨true, [⟨"device", none, [], "", 0, "", 0, 3, []⟩], "host-f"⟩
      ⟨fun _ => none, some 1, none, none⟩).reload_armed = true ∧
    (BlockDeviceWrapper_device_updates_handler shellyConsts "SHSW-1" none
      ⟨true, [⟨"device", none, [], "", 0, "", 0, 3, []⟩], "host-f"⟩
      ⟨fun _ => none, some 1, none, none⟩).state.last_cfg_changed = some 3 ∧
    (BlockDeviceWrapper_device_updates_handler shellyConsts "SHSW-1" none
      ⟨true, [⟨"device", none, [], "", 0, "", 0, 3, []⟩], "host-g"⟩
      emptyBlockState).reload_armed = false ∧
    (BlockDeviceWrapper_device_updates_handler shellyConsts "SHBDUO-1" none
      ⟨true, [⟨"light", none, ["mode"], "white", 0, "", 0, 0, []⟩,
              ⟨"device", none, [], "", 0, "", 0, 7, []⟩], "host-h"⟩
      ⟨fun _ => none, some 2, none, none⟩).reload_armed = false ∧
    (BlockDeviceWrapper_device_updates_handler shellyConsts "SHBLB-1" none
      ⟨true, [⟨"light", none, ["effect"], "", 4, "", 0, 0, []⟩,
              ⟨"device", none, [], "", 0, "", 0, 9, []⟩], "host-i"⟩
      ⟨fun _ => none, some 2, none, some 1⟩).reload_armed = false := by
  refine ⟨?_, ?_, ?_, ?_, ?_⟩
  · have h := (C7_cfg_changed_reload_arming.1 shellyConsts "SHSW-1" none
      ⟨true, [⟨"device", none, [], "", 0, "", 0, 3, []⟩], "host-f"⟩
      ⟨fun _ => none, some 1, none, none⟩ 1 rfl (by decide) (by decide)
      (by decide) rfl).1
    rw [h]; decide
  · have h := (C7_cfg_changed_reload_arming.1 shellyConsts "SHSW-1" none
      ⟨true, [⟨"device", none, [], "", 0, "", 0, 3, []⟩], "host-f"⟩
      ⟨fun _ => none, some 1, none, none⟩ 1 rfl (by decide) (by decide)
      (by decide) rfl).2
    rw [h]; decide
  · exact C7_cfg_changed_reload_arming.2.1 shellyConsts "SHSW-1" none
      ⟨true, [⟨"device", none, [], "", 0, "", 0, 3, []⟩], "host-g"⟩
      emptyBlockState rfl
  · exact (C7_cfg_changed_reload_arming.2.2.1 shellyConsts "SHBDUO-1" none
      ⟨true, [⟨"light", none, ["mode"], "white", 0, "", 0, 0, []⟩,
              ⟨"device", none, [], "", 0, "", 0, 7, []⟩], "host-h"⟩
      ⟨fun _ => none, some 2, none, none⟩ []
      [⟨"device", none, [], "", 0, "", 0, 7, []⟩]
      ⟨"light", none, ["mode"], "white", 0, "", 0, 0, []⟩ rfl rfl (by decide)
      (by decide) (by simp) (by decide)).1
  · exact (C7_cfg_changed_reload_arming.2.2.2 shellyConsts "SHBLB-1" none
      ⟨true, [⟨"light", none, ["effect"], "", 4, "", 0, 0, []⟩,
              ⟨"device", none, [], "", 0, "", 0, 9, []⟩], "host-i"⟩
      ⟨fun _ => none, some 2, none, some 1⟩ []
      [⟨"device", none, [], "", 0, "", 0, 9, []⟩]
      ⟨"light", none, ["effect"], "", 4, "", 0, 0, []⟩ rfl rfl (by decide)
      (by decide) (by simp) (by decide)).1
